import Mathlib

/-!
Verification of the piped-process subprocess communication channel
(`src/util/piped_process.cpp`, POSIX branch — the live code; the Windows
branch is largely commented out in the source).

The channel is shallowly embedded: the OS pipe carrying bytes from the
child is modelled as a schedule of outcomes of successive non-blocking
`read` calls, the outbound `FILE*` stream as an I/O log plus a broken
flag, and the `poll` primitive as an environment-supplied outcome.
-/

/-- The lifecycle enumeration `piped_processt::statet`. -/
inductive statet where
  | NOT_CREATED
  | CREATED
  | STOPPED
  | ERRORED
  deriving DecidableEq, Repr

/-- The result enumeration `piped_processt::send_responset`. -/
inductive send_responset where
  | SUCCEEDED
  | FAILED
  | ERRORED
  deriving DecidableEq, Repr

/-- Outcome of one non-blocking `read(pipe_output[0], buff, BUFSIZE)` call:
a chunk of bytes (`nbytes > 0`), nothing currently buffered
(`-1` with `EAGAIN`), a genuine read error (`-1` with another `errno`),
or end-of-stream (`0`, the writer side is closed). -/
inductive ReadEvent where
  | chunk (bytes : List Nat)
  | nothingAvailable
  | readError
  | endOfStream
  deriving DecidableEq, Repr

/-- One operation performed on the outbound stream `command_stream`
(`fputs` writes the message, `fflush` flushes). -/
inductive OutOp where
  | write (message : String)
  | flush
  deriving DecidableEq, Repr

/-- The channel object of `piped_processt`.  `inbound` is the schedule of
outcomes the inbound pipe will hand to successive reads; `outLog` records
every operation performed on the outbound stream; `outboundBroken` says
whether the outbound pipe has gone down (child exited), making `fputs`
return `EOF`. -/
structure piped_processt where
  process_state : statet
  command : List String
  inbound : List ReadEvent
  outboundBroken : Bool
  outLog : List OutOp
  deriving DecidableEq, Repr

/-- Environment of a construction attempt: whether each `pipe` call and the
`fcntl(F_SETFL, O_NONBLOCK)` call succeed, what `fork` returns in the parent
(child pid, or `-1` on failure), and what the child will make readable. -/
structure ConstructEnv where
  pipe_input_ok : Bool
  pipe_output_ok : Bool
  fcntl_ok : Bool
  fork_result : Int
  inbound_events : List ReadEvent
  outbound_broken : Bool
  deriving DecidableEq, Repr

/-- The constructor `piped_processt::piped_processt(commandvec)`, POSIX
branch.  Each failed `pipe`/`fcntl` call throws (modelled as `.error` with
the thrown message).  Note the source never inspects the value returned by
`fork`: both `pid == -1` (fork failure) and a positive pid reach the parent
branch, which unconditionally sets `process_state = statet::CREATED`
(line 202), so `fork_result` does not appear on the success path below.
No check of `commandvec` for emptiness exists in the source either. -/
def piped_processt.construct (commandvec : List String) (env : ConstructEnv) :
    Except String piped_processt :=
  if env.pipe_input_ok = false then
    Except.error "Input pipe creation failed"
  else if env.pipe_output_ok = false then
    Except.error "Output pipe creation failed"
  else if env.fcntl_ok = false then
    Except.error "Setting pipe non-blocking failed"
  else
    Except.ok
      { process_state := statet.CREATED
        command := commandvec
        inbound := env.inbound_events
        outboundBroken := env.outbound_broken
        outLog := [] }

/-- `piped_processt::send(message)`: returns `ERRORED` at once when
`process_state != statet::CREATED`, otherwise performs `fputs` followed by
`fflush` on `command_stream` and reports `FAILED` when `fputs` returned
`EOF`, `SUCCEEDED` otherwise. -/
def piped_processt.send (p : piped_processt) (message : String) :
    send_responset × piped_processt :=
  if p.process_state ≠ statet.CREATED then
    (send_responset.ERRORED, p)
  else
    let p1 := { p with outLog := p.outLog ++ [OutOp.write message, OutOp.flush] }
    if p.outboundBroken then (send_responset.FAILED, p1)
    else (send_responset.SUCCEEDED, p1)

/-- The accumulation loop of `piped_processt::receive`: a read yielding
`nbytes > 0` appends the chunk and continues (`success = nbytes > 0`);
any read yielding `nbytes <= 0` — nothing available (`-1`), error (`-1`),
or end-of-stream (`0`) — ends the loop without appending.  An exhausted
schedule means the pipe has nothing buffered, i.e. the next read yields
`-1`. -/
def receiveAux : List ReadEvent → List Nat
  | [] => []
  | ReadEvent.chunk bytes :: rest =>
      if bytes.length > 0 then bytes ++ receiveAux rest else []
  | ReadEvent.nothingAvailable :: _ => []
  | ReadEvent.readError :: _ => []
  | ReadEvent.endOfStream :: _ => []

/-- The part of the read schedule left unconsumed by one `receive()` call
(everything after the stopping read). -/
def receiveRest : List ReadEvent → List ReadEvent
  | [] => []
  | ReadEvent.chunk bytes :: rest =>
      if bytes.length > 0 then receiveRest rest else rest
  | ReadEvent.nothingAvailable :: rest => rest
  | ReadEvent.readError :: rest => rest
  | ReadEvent.endOfStream :: rest => rest

/-- `piped_processt::receive()`.  The `INVARIANT(process_state ==
statet::CREATED, ...)` guard aborts execution on violation; that abort is
modelled as `none`, distinct from every normal return `some (bytes, p1)`. -/
def piped_processt.receive (p : piped_processt) :
    Option (List Nat × piped_processt) :=
  if p.process_state = statet.CREATED then
    some (receiveAux p.inbound, { p with inbound := receiveRest p.inbound })
  else none

/-- Conversion of a `std::size_t` value to `int` by the assignment
`timeout = wait_time.value()` in `can_receive`: two's-complement
wraparound of the low 32 bits (LP64 model: 64-bit `size_t`, 32-bit
`int`). -/
def toInt32 (n : Nat) : Int :=
  if n % 2 ^ 32 < 2 ^ 31 then ((n % 2 ^ 32 : Nat) : Int)
  else ((n % 2 ^ 32 : Nat) : Int) - 2 ^ 32

/-- Lines 340–348 of `can_receive`: unwrap the optional argument into the
`int timeout` handed to `poll` - the wrapped value when present, `-1`
(wait indefinitely) when absent. -/
def can_receive_timeout : Option Nat → Int
  | some v => toInt32 v
  | none => -1

/-- Classification of an `int` timeout by `poll`: negative waits
indefinitely, zero returns immediately, positive waits up to that many
milliseconds. -/
inductive TimeoutKind where
  | immediate
  | bounded
  | unbounded
  deriving DecidableEq, Repr

/-- How `poll` interprets its `int` timeout argument. -/
def timeoutKind (t : Int) : TimeoutKind :=
  if t < 0 then TimeoutKind.unbounded
  else if t = 0 then TimeoutKind.immediate
  else TimeoutKind.bounded

/-- Outcome of one `poll(&fds, nfds, timeout)` call: `-1` (error), `0`
(timed out), or a positive count together with the `revents` bitmask set
on the single polled descriptor. -/
inductive PollOutcome where
  | pollError
  | pollTimeout
  | events (revents : Nat)
  deriving DecidableEq, Repr

/-- The `POLLIN` event bit. -/
def POLLIN : Nat := 1

/-- The `POLLERR` event bit. -/
def POLLERR : Nat := 8

/-- The `POLLHUP` event bit. -/
def POLLHUP : Nat := 16

/-- `piped_processt::can_receive(wait_time)`: converts the optional
`wait_time` to the `int timeout` for `poll` (the environment `pollFn`
receives it) and switches on the result: `-1` sets
`process_state = statet::ERRORED` and falls through to return `false`;
`0` returns `false`; otherwise `true` exactly when `revents & POLLIN`
is set, `false` for any other event bits. -/
def piped_processt.can_receive (p : piped_processt) (wait_time : Option Nat)
    (pollFn : Int → PollOutcome) : Bool × piped_processt :=
  match pollFn (can_receive_timeout wait_time) with
  | PollOutcome.pollError => (false, { p with process_state := statet.ERRORED })
  | PollOutcome.pollTimeout => (false, p)
  | PollOutcome.events revents =>
      if revents &&& POLLIN ≠ 0 then (true, p) else (false, p)

/-- The no-argument overload `piped_processt::can_receive()`, whose body is
exactly `return can_receive(0);`. -/
def piped_processt.can_receive_noarg (p : piped_processt)
    (pollFn : Int → PollOutcome) : Bool × piped_processt :=
  p.can_receive (some 0) pollFn

/-- Model of `poll(fd, POLLIN, 0)` on the inbound pipe, determined by the
current read schedule: bytes buffered (the next read yields a nonempty
chunk) reports `POLLIN`; writer closed with nothing buffered reports
`POLLHUP` without `POLLIN`; a pending descriptor error reports `POLLERR`;
otherwise the zero timeout elapses at once with nothing available. -/
def poll_zero (p : piped_processt) : PollOutcome :=
  match p.inbound with
  | ReadEvent.chunk (_ :: _) :: _ => PollOutcome.events POLLIN
  | ReadEvent.chunk [] :: _ => PollOutcome.events POLLHUP
  | ReadEvent.endOfStream :: _ => PollOutcome.events POLLHUP
  | ReadEvent.readError :: _ => PollOutcome.events POLLERR
  | ReadEvent.nothingAvailable :: _ => PollOutcome.pollTimeout
  | [] => PollOutcome.pollTimeout

/-- At least one byte is currently buffered in the inbound pipe: the next
read would yield a nonempty chunk. -/
def dataAvailable : List ReadEvent → Bool
  | ReadEvent.chunk (_ :: _) :: _ => true
  | _ => false

/-- `piped_processt::wait_receive()`: `can_receive` with the unbounded
timeout (`nullopt`), then `receive()`. -/
def piped_processt.wait_receive (p : piped_processt)
    (pollFn : Int → PollOutcome) : Option (List Nat × piped_processt) :=
  (p.can_receive none pollFn).2.receive

/-- `piped_processt::get_status()`. -/
def piped_processt.get_status (p : piped_processt) : statet :=
  p.process_state

/-- `piped_processt::wait_receivable(wait_time)`: loop while
`process_state == statet::CREATED && !can_receive(0)`, sleeping between
polls.  `pollSeq` gives the outcome of each successive poll and `fuel`
bounds the number of iterations modelled (the sleep is not modelled). -/
def piped_processt.wait_receivable (p : piped_processt)
    (pollSeq : Nat → PollOutcome) : Nat → piped_processt
  | 0 => p
  | fuel + 1 =>
      if p.process_state = statet.CREATED then
        if (p.can_receive (some 0) (fun _ => pollSeq 0)).1 then
          (p.can_receive (some 0) (fun _ => pollSeq 0)).2
        else
          ((p.can_receive (some 0) (fun _ => pollSeq 0)).2).wait_receivable
            (fun n => pollSeq (n + 1)) fuel
      else p

/-- One public operation on a channel, together with the environment data
(poll outcomes) it consumes. -/
inductive ChannelOp where
  | op_send (message : String)
  | op_receive
  | op_can_receive (wait_time : Option Nat) (pollFn : Int → PollOutcome)
  | op_wait_receive (pollFn : Int → PollOutcome)
  | op_get_status
  | op_wait_receivable (pollSeq : Nat → PollOutcome) (fuel : Nat)

/-- Effect of one operation on the channel object; `none` when the
operation aborts on an `INVARIANT` violation. -/
def stepOp : ChannelOp → piped_processt → Option piped_processt
  | ChannelOp.op_send message, p => some (p.send message).2
  | ChannelOp.op_receive, p => (p.receive).map Prod.snd
  | ChannelOp.op_can_receive w pollFn, p => some (p.can_receive w pollFn).2
  | ChannelOp.op_wait_receive pollFn, p => (p.wait_receive pollFn).map Prod.snd
  | ChannelOp.op_get_status, p => some p
  | ChannelOp.op_wait_receivable pollSeq fuel, p =>
      some (p.wait_receivable pollSeq fuel)

/-- Channel objects reachable from a successful construction by any
sequence of public operations. -/
inductive Reachable : piped_processt → Prop where
  | constructed (commandvec : List String) (env : ConstructEnv)
      (p : piped_processt) :
      piped_processt.construct commandvec env = Except.ok p → Reachable p
  | step (p p1 : piped_processt) (op : ChannelOp) :
      Reachable p → stepOp op p = some p1 → Reachable p1

/-- Whether a read event is a nonempty chunk (a read that returns data). -/
def isDataChunk : ReadEvent → Bool
  | ReadEvent.chunk (_ :: _) => true
  | _ => false

/-- The payload of a chunk event. -/
def chunkBytes : ReadEvent → List Nat
  | ReadEvent.chunk bytes => bytes
  | _ => []

/-- The bytes already buffered in the OS pipe at call time, as the spec
words it: the concatenation of the maximal leading run of data-bearing
reads, up to the first read reporting nothing available, an error, or
end-of-stream. -/
def availableNow (events : List ReadEvent) : List Nat :=
  ((events.takeWhile isDataChunk).map chunkBytes).flatten

/-- Concrete channel used to instantiate the C1 theorem. -/
def c1p : piped_processt :=
  { process_state := statet.CREATED
    command := ["z3", "--smt2", "-in"]
    inbound := [ReadEvent.chunk [115, 97, 116], ReadEvent.nothingAvailable]
    outboundBroken := false
    outLog := [] }

/-- Concrete channel (in a terminal state) used to instantiate the C2
theorem. -/
def c2p : piped_processt :=
  { process_state := statet.ERRORED
    command := ["z3"]
    inbound := []
    outboundBroken := false
    outLog := [] }

/-- Environment in which both pipes and the `fcntl` call succeed but
`fork` fails, used for C5. -/
def c5env : ConstructEnv :=
  { pipe_input_ok := true
    pipe_output_ok := true
    fcntl_ok := true
    fork_result := -1
    inbound_events := []
    outbound_broken := false }

/-- Fully successful construction environment, used for C7 and C9. -/
def okenv : ConstructEnv :=
  { pipe_input_ok := true
    pipe_output_ok := true
    fcntl_ok := true
    fork_result := 42
    inbound_events := []
    outbound_broken := false }

/-- Concrete freshly constructed channel, used to instantiate the C7
theorem. -/
def c7p : piped_processt :=
  { process_state := statet.CREATED
    command := ["echo"]
    inbound := []
    outboundBroken := false
    outLog := [] }

/-- Concrete channel used to instantiate the C8 theorem. -/
def c8p : piped_processt :=
  { process_state := statet.CREATED
    command := ["echo"]
    inbound := [ReadEvent.chunk [5]]
    outboundBroken := false
    outLog := [OutOp.write "x", OutOp.flush] }

/-- The channel `c8p` after one `receive()` drained its chunk. -/
def c8p1 : piped_processt :=
  { c8p with inbound := [] }

theorem receiveAux_eq_availableNow (events : List ReadEvent) :
    receiveAux events = availableNow events := by
  induction events with
  | nil => rfl
  | cons e rest ih =>
      cases e with
      | chunk bytes =>
          cases bytes with
          | nil => simp [receiveAux, availableNow, isDataChunk]
          | cons b bs =>
              simp [receiveAux, availableNow, isDataChunk, chunkBytes] at ih ⊢
              exact ih
      | nothingAvailable => rfl
      | readError => rfl
      | endOfStream => rfl


/-- Claim C1: for every channel in state `created`, `receive()` drains
exactly the bytes already buffered at call time — it appends every chunk
obtained by the repeated non-blocking reads, stops at the first read
reporting nothing available, an error, or end-of-stream (so it never
waits for more data), and returns the empty byte sequence when the very
first read finds nothing. -/
theorem C1_receive_drains_available (p : piped_processt)
    (h : p.process_state = statet.CREATED) :
    p.receive = some (availableNow p.inbound,
      { p with inbound := receiveRest p.inbound }) ∧
    (∀ e rest, isDataChunk e = false → receiveAux (e :: rest) = []) ∧
    (dataAvailable p.inbound = false →
      (p.receive).map Prod.fst = some []) := by
  refine ⟨?_, ?_, ?_⟩
  · simp [piped_processt.receive, h, receiveAux_eq_availableNow]
  · intro e rest he
    cases e with
    | chunk bytes =>
        cases bytes with
        | nil => rfl
        | cons b bs => simp [isDataChunk] at he
    | nothingAvailable => rfl
    | readError => rfl
    | endOfStream => rfl
  · intro hno
    have hav : availableNow p.inbound = [] := by
      cases hin : p.inbound with
      | nil => rfl
      | cons e rest =>
          cases e with
          | chunk bytes =>
              cases bytes with
              | nil => simp [availableNow, isDataChunk]
              | cons b bs => rw [hin] at hno; simp [dataAvailable] at hno
          | nothingAvailable => simp [availableNow, isDataChunk]
          | readError => simp [availableNow, isDataChunk]
          | endOfStream => simp [availableNow, isDataChunk]
    simp [piped_processt.receive, h, receiveAux_eq_availableNow, hav]

/-- Witness for C1 at a concrete channel holding one buffered chunk. -/
theorem C1_receive_drains_available_witness :
    c1p.process_state = statet.CREATED ∧
    (c1p.receive = some (availableNow c1p.inbound,
        { c1p with inbound := receiveRest c1p.inbound }) ∧
      (∀ e rest, isDataChunk e = false → receiveAux (e :: rest) = []) ∧
      (dataAvailable c1p.inbound = false →
        (c1p.receive).map Prod.fst = some [])) :=
  ⟨rfl, C1_receive_drains_available c1p rfl⟩

/-- Claim C2: `send` on a channel whose state is not `created` returns
`ERRORED` immediately and leaves the channel — in particular the outbound
I/O log — completely untouched: no write, no flush. -/
theorem C2_send_errored_no_io (p : piped_processt) (message : String)
    (h : p.process_state ≠ statet.CREATED) :
    p.send message = (send_responset.ERRORED, p) := by
  simp [piped_processt.send, h]

/-- Witness for C2 on a concrete errored channel. -/
theorem C2_send_errored_no_io_witness :
    c2p.process_state ≠ statet.CREATED ∧
    c2p.send "(check-sat)" = (send_responset.ERRORED, c2p) :=
  ⟨by decide, C2_send_errored_no_io c2p "(check-sat)" (by decide)⟩

/-- Claim C3: when `poll` reports an error during `can_receive`, the
channel's state becomes `errored` and the call returns `false`; a plain
timeout also returns `false` and changes nothing, so the two cases are
indistinguishable from the returned Boolean alone. -/
theorem C3_poll_error_sets_errored (p : piped_processt)
    (wait_time : Option Nat) :
    p.can_receive wait_time (fun _ => PollOutcome.pollError) =
      (false, { p with process_state := statet.ERRORED }) ∧
    p.can_receive wait_time (fun _ => PollOutcome.pollTimeout) =
      (false, p) :=
  ⟨rfl, rfl⟩

/-- Claim C4: `can_receive` with a zero timeout polls without waiting and
answers `true` exactly when at least one byte is currently buffered in
the inbound pipe (leaving the channel unchanged), and the no-argument
overload is exactly `can_receive(0)`. -/
theorem C4_can_receive_zero_availability (p : piped_processt) :
    ((p.can_receive (some 0) (fun _ => poll_zero p)).1 = true ↔
      dataAvailable p.inbound = true) ∧
    (p.can_receive (some 0) (fun _ => poll_zero p)).2 = p ∧
    (∀ pollFn : Int → PollOutcome,
      p.can_receive_noarg pollFn = p.can_receive (some 0) pollFn) := by
  refine ⟨?_, ?_, fun _ => rfl⟩ <;>
  · cases hin : p.inbound with
    | nil => simp [piped_processt.can_receive, poll_zero, dataAvailable, hin]
    | cons e rest =>
        cases e with
        | chunk bytes =>
            cases bytes with
            | nil =>
                simp [piped_processt.can_receive, poll_zero, dataAvailable,
                  hin, POLLIN, POLLHUP]
            | cons b bs =>
                simp [piped_processt.can_receive, poll_zero, dataAvailable,
                  hin, POLLIN]
        | nothingAvailable =>
            simp [piped_processt.can_receive, poll_zero, dataAvailable, hin]
        | readError =>
            simp [piped_processt.can_receive, poll_zero, dataAvailable,
              hin, POLLIN, POLLERR]
        | endOfStream =>
            simp [piped_processt.can_receive, poll_zero, dataAvailable,
              hin, POLLIN, POLLHUP]

/-- Claim C5 (failing input): with both pipes and the `fcntl` call
succeeding but `fork` returning `-1`, construction does not throw and
completes with `process_state = statet.CREATED` — the source never
examines `fork`'s return value, so a spawn failure is silently absorbed
instead of being reported as a fatal construction error. -/
theorem C5_fork_failure_ignored :
    piped_processt.construct ["z3", "--smt2", "-in"] c5env =
      Except.ok
        { process_state := statet.CREATED
          command := ["z3", "--smt2", "-in"]
          inbound := []
          outboundBroken := false
          outLog := [] } := rfl

/-- Claim C6: `receive()` aborts on the `INVARIANT` check (modelled as
`none`, never a sentinel return value) exactly when the channel's state
is not `created`. -/
theorem C6_receive_precondition (p : piped_processt) :
    p.receive = none ↔ p.process_state ≠ statet.CREATED := by
  unfold piped_processt.receive
  split <;> simp_all

theorem construct_ok_created {commandvec : List String} {env : ConstructEnv}
    {p : piped_processt}
    (h : piped_processt.construct commandvec env = Except.ok p) :
    p.process_state = statet.CREATED := by
  unfold piped_processt.construct at h
  split at h
  · exact absurd h (by simp)
  · split at h
    · exact absurd h (by simp)
    · split at h
      · exact absurd h (by simp)
      · cases h
        rfl

theorem send_snd_state (p : piped_processt) (message : String) :
    (p.send message).2.process_state = p.process_state := by
  unfold piped_processt.send
  split
  · rfl
  · split <;> rfl

theorem receive_some_state {p p1 : piped_processt} {bytes : List Nat}
    (h : p.receive = some (bytes, p1)) :
    p1.process_state = p.process_state := by
  unfold piped_processt.receive at h
  split at h
  · cases h
    rfl
  · exact absurd h (by simp)

theorem can_receive_snd_state (p : piped_processt) (wait_time : Option Nat)
    (pollFn : Int → PollOutcome) :
    (p.can_receive wait_time pollFn).2.process_state = p.process_state ∨
    (p.can_receive wait_time pollFn).2.process_state = statet.ERRORED := by
  cases hpoll : pollFn (can_receive_timeout wait_time) with
  | pollError => right; simp [piped_processt.can_receive, hpoll]
  | pollTimeout => left; simp [piped_processt.can_receive, hpoll]
  | events revents =>
      left
      simp only [piped_processt.can_receive, hpoll]
      split <;> rfl

/-- The state after any sequence of public operations is `created` or
`errored`. -/
def stateOK (p : piped_processt) : Prop :=
  p.process_state = statet.CREATED ∨ p.process_state = statet.ERRORED

theorem wait_receivable_stateOK (pollSeq : Nat → PollOutcome)
    (fuel : Nat) :
    ∀ p : piped_processt, stateOK p →
      stateOK (p.wait_receivable pollSeq fuel) := by
  induction fuel generalizing pollSeq with
  | zero => intro p hp; exact hp
  | succ fuel ih =>
      intro p hp
      have hnext : stateOK (p.can_receive (some 0) (fun _ => pollSeq 0)).2 := by
        rcases can_receive_snd_state p (some 0) (fun _ => pollSeq 0) with
          h | h
        · unfold stateOK at hp ⊢
          rw [h]; exact hp
        · exact Or.inr h
      unfold piped_processt.wait_receivable
      split
      · split
        · exact hnext
        · exact ih _ _ hnext
      · exact hp

theorem receive_map_state {p p1 : piped_processt}
    (h : Option.map Prod.snd p.receive = some p1) :
    p1.process_state = p.process_state := by
  cases hr : p.receive with
  | none => rw [hr] at h; exact absurd h (by simp)
  | some x =>
      rw [hr] at h
      have hx : x.2 = p1 := by simpa using h
      rw [← hx]
      exact @receive_some_state p x.2 x.1 (by rw [hr])

theorem stepOp_stateOK {p p1 : piped_processt} {op : ChannelOp}
    (hp : stateOK p) (h : stepOp op p = some p1) : stateOK p1 := by
  unfold stateOK at hp ⊢
  cases op with
  | op_send message =>
      simp only [stepOp, Option.some.injEq] at h
      rw [← h, send_snd_state]
      exact hp
  | op_receive =>
      simp only [stepOp] at h
      rw [receive_map_state h]
      exact hp
  | op_can_receive w pollFn =>
      simp only [stepOp, Option.some.injEq] at h
      rcases can_receive_snd_state p w pollFn with hc | hc
      · rw [← h, hc]; exact hp
      · right; rw [← h]; exact hc
  | op_wait_receive pollFn =>
      simp only [stepOp, piped_processt.wait_receive] at h
      have hmid := receive_map_state h
      rcases can_receive_snd_state p none pollFn with hc | hc
      · rw [hmid, hc]; exact hp
      · right; rw [hmid, hc]
  | op_get_status =>
      simp only [stepOp, Option.some.injEq] at h
      rw [← h]
      exact hp
  | op_wait_receivable pollSeq fuel =>
      simp only [stepOp, Option.some.injEq] at h
      rw [← h]
      exact wait_receivable_stateOK pollSeq fuel p hp

theorem reachable_stateOK {p : piped_processt} (h : Reachable p) :
    stateOK p := by
  induction h with
  | constructed commandvec env p hc => exact Or.inl (construct_ok_created hc)
  | step p p1 op _ hs ih => exact stepOp_stateOK ih hs

theorem receive_none {p : piped_processt}
    (h : p.process_state ≠ statet.CREATED) : p.receive = none := by
  unfold piped_processt.receive
  rw [if_neg h]

theorem errored_ne_created {s : statet} (h : s = statet.ERRORED) :
    s ≠ statet.CREATED := by
  rw [h]
  decide

theorem wait_receivable_frozen {p : piped_processt}
    (h : p.process_state ≠ statet.CREATED)
    (pollSeq : Nat → PollOutcome) (fuel : Nat) :
    p.wait_receivable pollSeq fuel = p := by
  cases fuel with
  | zero => rfl
  | succ fuel =>
      unfold piped_processt.wait_receivable
      rw [if_neg h]

theorem stepOp_errored_frozen {p p1 : piped_processt} {op : ChannelOp}
    (hp : p.process_state = statet.ERRORED) (h : stepOp op p = some p1) :
    p1.process_state = statet.ERRORED := by
  cases op with
  | op_send message =>
      simp only [stepOp, Option.some.injEq] at h
      rw [← h, send_snd_state]
      exact hp
  | op_receive =>
      simp only [stepOp, receive_none (errored_ne_created hp)] at h
      exact absurd h (by simp)
  | op_can_receive w pollFn =>
      simp only [stepOp, Option.some.injEq] at h
      rcases can_receive_snd_state p w pollFn with hc | hc
      · rw [← h, hc]; exact hp
      · rw [← h]; exact hc
  | op_wait_receive pollFn =>
      have hmid : (p.can_receive none pollFn).2.process_state =
          statet.ERRORED := by
        rcases can_receive_snd_state p none pollFn with hc | hc
        · rw [hc]; exact hp
        · exact hc
      simp only [stepOp, piped_processt.wait_receive,
        receive_none (errored_ne_created hmid)] at h
      exact absurd h (by simp)
  | op_get_status =>
      simp only [stepOp, Option.some.injEq] at h
      rw [← h]
      exact hp
  | op_wait_receivable pollSeq fuel =>
      simp only [stepOp, Option.some.injEq,
        wait_receivable_frozen (errored_ne_created hp) pollSeq fuel] at h
      rw [← h]
      exact hp

/-- Claim C7: over every sequence of public operations, the state machine
respects its terminal states — construction yields `created` (the error
path throws instead of producing a channel), no reachable channel is ever
in `not_created` or `stopped` again, and a channel whose state is
`errored` (or the unreachable `stopped`) keeps that state under every
operation that completes. -/
theorem C7_terminal_state_invariant :
    (∀ (commandvec : List String) (env : ConstructEnv) (p : piped_processt),
        piped_processt.construct commandvec env = Except.ok p →
        p.process_state = statet.CREATED) ∧
    (∀ p : piped_processt, Reachable p →
        p.process_state ≠ statet.NOT_CREATED ∧
        p.process_state ≠ statet.STOPPED) ∧
    (∀ (p : piped_processt) (op : ChannelOp) (p1 : piped_processt),
        p.process_state = statet.ERRORED ∨ p.process_state = statet.STOPPED →
        Reachable p → stepOp op p = some p1 →
        p1.process_state = p.process_state) := by
  refine ⟨fun commandvec env p h => construct_ok_created h, ?_, ?_⟩
  · intro p hr
    rcases reachable_stateOK hr with h | h <;> rw [h] <;>
      exact ⟨by decide, by decide⟩
  · intro p op p1 hterm hr hs
    rcases hterm with hterm | hterm
    · rw [hterm]
      exact stepOp_errored_frozen hterm hs
    · rcases reachable_stateOK hr with h | h <;>
        · rw [hterm] at h
          exact absurd h (by decide)

/-- Witness for C7 at a concrete freshly constructed channel. -/
theorem C7_terminal_state_invariant_witness :
    c7p.process_state ≠ statet.NOT_CREATED ∧
    c7p.process_state ≠ statet.STOPPED :=
  C7_terminal_state_invariant.2.1 c7p
    (Reachable.constructed ["echo"] okenv c7p rfl)

/-- Claim C8: neither `send` nor `receive` touches any field of the
channel other than the transferred bytes — in particular `process_state`
is unchanged by both, `send` leaves the inbound side alone, and `receive`
leaves the outbound side alone. -/
theorem C8_send_receive_frame (p : piped_processt) (message : String)
    (bytes : List Nat) (p1 : piped_processt) :
    ((p.send message).2.process_state = p.process_state ∧
     (p.send message).2.command = p.command ∧
     (p.send message).2.inbound = p.inbound ∧
     (p.send message).2.outboundBroken = p.outboundBroken) ∧
    (p.receive = some (bytes, p1) →
      p1.process_state = p.process_state ∧
      p1.command = p.command ∧
      p1.outboundBroken = p.outboundBroken ∧
      p1.outLog = p.outLog) := by
  constructor
  · unfold piped_processt.send
    split
    · exact ⟨rfl, rfl, rfl, rfl⟩
    · split <;> exact ⟨rfl, rfl, rfl, rfl⟩
  · intro h
    unfold piped_processt.receive at h
    split at h
    · cases h
      exact ⟨rfl, rfl, rfl, rfl⟩
    · exact absurd h (by simp)

/-- Witness for C8 at a concrete channel with one buffered chunk. -/
theorem C8_send_receive_frame_witness :
    c8p.receive = some ([5], c8p1) ∧
    (c8p1.process_state = c8p.process_state ∧
     c8p1.command = c8p.command ∧
     c8p1.outboundBroken = c8p.outboundBroken ∧
     c8p1.outLog = c8p.outLog) :=
  ⟨rfl, (C8_send_receive_frame c8p "(exit)" [5] c8p1).2 rfl⟩

/-- Claim C9 (failing input): the constructor performs no emptiness check
on `commandvec` — with an empty command and an otherwise healthy
environment it proceeds through pipe creation and `fork` and completes
with `process_state = statet.CREATED` (while the forked child evaluates
`commandvec[0]` on an empty vector), instead of detecting and reporting
a construction-time error. -/
theorem C9_empty_command_accepted :
    piped_processt.construct [] okenv =
      Except.ok
        { process_state := statet.CREATED
          command := []
          inbound := []
          outboundBroken := false
          outLog := [] } := rfl

/-- Claim C10 counterexample: `2 ^ 32` exceeds the maximum 32-bit signed
int, yet its wrapped conversion is `0`, so `can_receive` polls with an
immediate timeout — not the negative, wait-indefinitely one the claim
asserts for every out-of-range value. -/
theorem C10_counterexample :
    2 ^ 31 - 1 < (2 ^ 32 : Nat) ∧
    can_receive_timeout (some (2 ^ 32)) = 0 ∧
    timeoutKind (can_receive_timeout (some (2 ^ 32))) =
      TimeoutKind.immediate := by
  refine ⟨by norm_num, ?_, ?_⟩ <;> decide

/-- Claim C10 as amended: whenever the contained `std::size_t` value has
its low 32 bits at or above `2 ^ 31` (in particular every value in
`[2 ^ 31, 2 ^ 32)`), the conversion to `int` produces a negative timeout
and `poll` therefore waits indefinitely — the bounded-timeout case
silently becomes an unbounded wait. -/
theorem C10_amended_wraparound (v : Nat) (h : 2 ^ 31 ≤ v % 2 ^ 32) :
    can_receive_timeout (some v) < 0 ∧
    timeoutKind (can_receive_timeout (some v)) = TimeoutKind.unbounded := by
  have hlt : v % 2 ^ 32 < 2 ^ 32 := Nat.mod_lt _ (by norm_num)
  have hneg : can_receive_timeout (some v) < 0 := by
    simp only [can_receive_timeout, toInt32]
    rw [if_neg (by omega)]
    have hcast : ((v % 2 ^ 32 : Nat) : Int) < 2 ^ 32 := by
      exact_mod_cast hlt
    omega
  refine ⟨hneg, ?_⟩
  unfold timeoutKind
  rw [if_pos hneg]

/-- Witness for the amended C10 at the smallest wrapping value. -/
theorem C10_amended_wraparound_witness :
    2 ^ 31 ≤ 2 ^ 31 % 2 ^ 32 ∧
    (can_receive_timeout (some (2 ^ 31)) < 0 ∧
     timeoutKind (can_receive_timeout (some (2 ^ 31))) =
       TimeoutKind.unbounded) :=
  ⟨by decide, C10_amended_wraparound (2 ^ 31) (by decide)⟩
